import Mathlib

/-!
Shallow embedding of `backend/app/models.py`, the persistence layer of a
small Flask blog: the `User`, `Post` and `Page` record types, the password
property (write-only, hashed via werkzeug), the `is_visible` publication
check, and the SQLAlchemy column declarations (defaults, `onupdate`,
uniqueness, lengths) together with the database behaviour they induce.

Machine timestamps (`datetime.datetime`) are modelled as natural numbers
ordered by `≤`; `None`-able columns are `Option`; Python exceptions are an
explicit error type threaded through `Except`.
-/

namespace FlaskBlog

/-- Python exceptions raised in this layer. -/
inductive PyError where
  | attributeError (msg : String)
  deriving Repr, DecidableEq

/-- Database-driver errors surfaced to the application. -/
inductive DbError where
  | integrityError (msg : String)
  | dataError (msg : String)
  deriving Repr, DecidableEq

/-- The salted digest computed by werkzeug's `pbkdf2` hashing. The
cryptographic primitive is idealised as an injective function of the salt
and the password (a collision-free hash, matching the spec's "with
overwhelming probability"); its output is a printable string as in the
library. -/
def pwDigest (salt password : String) : String :=
  salt ++ ":" ++ password

/-- A stored werkzeug password hash, i.e. the parsed content of the
`"method$salt$hash"` string produced by `generate_password_hash`. -/
structure PwHash where
  method : String
  salt : String
  digest : String
  deriving Repr, DecidableEq

/-- werkzeug `generate_password_hash`: draws a salt (passed explicitly
here) and stores the method, the salt and the salted digest. -/
def generate_password_hash (salt : String) (password : String) : PwHash :=
  { method := "pbkdf2:sha256", salt := salt, digest := pwDigest salt password }

/-- werkzeug `check_password_hash`: recomputes the digest of the candidate
under the stored method and salt and compares it with the stored digest. -/
def check_password_hash (pwhash : PwHash) (password : String) : Bool :=
  pwhash.digest == pwDigest pwhash.salt password

/-- A row of the `users` table (`class User`). `password_hash` is `none`
when the password setter was never invoked (NULL column). -/
structure User where
  id : Option Nat
  username : String
  email : Option String
  password_hash : Option PwHash
  is_admin : Option Bool
  deriving Repr, DecidableEq

/-- `User.password` property getter: always raises
`AttributeError('password is not a readable attribute')`. -/
def User.password (_u : User) : Except PyError String :=
  .error (.attributeError "password is not a readable attribute")

/-- `User.password` property setter: stores the werkzeug hash of the
plaintext (the salt drawn by the library is passed explicitly). -/
def User.password_set (salt : String) (u : User) (password : String) : User :=
  { u with password_hash := some (generate_password_hash salt password) }

/-- `User.verify_password`: `check_password_hash(self.password_hash,
password)`. When `password_hash` is NULL, Python passes `None` to the
library, which calls a string method on it and raises `AttributeError`. -/
def User.verify_password (u : User) (password : String) : Except PyError Bool :=
  match u.password_hash with
  | none => .error (.attributeError "NoneType object has no attribute count")
  | some h => .ok (check_password_hash h password)

/-- A row of the `posts` table (`class Post`). Timestamp columns are
`Option Nat` (`DateTime`, possibly NULL before defaults apply). -/
structure Post where
  id : Option Nat
  title : String
  created : Option Nat
  modified : Option Nat
  pub_date : Option Nat
  summary : String
  body : String
  author : Option Nat
  slug : Option String
  deriving Repr, DecidableEq

/-- `Post.is_visible`: `bool(self.pub_date) and self.pub_date <=
datetime.datetime.now()`. `bool(None)` is `False`; a `datetime` object is
always truthy, so the first conjunct only tests that `pub_date` is set. -/
def Post.is_visible (now : Nat) (p : Post) : Bool :=
  match p.pub_date with
  | none => false
  | some d => decide (d ≤ now)

/-- A row of the `Pages` table (`class Page`). -/
structure Page where
  id : Option Nat
  title : String
  created : Option Nat
  modified : Option Nat
  text : String
  deriving Repr, DecidableEq

/-- A SQLAlchemy column `default` / `onupdate` argument: either a plain
value (the class body evaluated an expression once, when the class was
defined) or a callable, invoked anew at each INSERT/UPDATE statement. -/
inductive ColDefault where
  | scalar (v : Nat)
  | callable (f : Nat → Nat)

/-- How the ORM produces the column value at a statement executed at
`stmtTime`: a scalar is used as-is, a callable is called now. -/
def ColDefault.eval (d : ColDefault) (stmtTime : Nat) : Nat :=
  match d with
  | .scalar v => v
  | .callable _ => stmtTime

/-- `created = db.Column(db.DateTime, default=datetime.datetime.now())`:
the argument is the CALL `datetime.datetime.now()`, evaluated while the
class body runs at time `defTime`, so the column default is the scalar
`defTime`. -/
def Post.createdDefault (defTime : Nat) : ColDefault := .scalar defTime

/-- `modified = db.Column(db.DateTime, onupdate=datetime.datetime.now())`:
likewise a scalar frozen to class-definition time `defTime`. -/
def Post.modifiedOnupdate (defTime : Nat) : ColDefault := .scalar defTime

/-- `Page.created` declaration, identical to `Post.created`. -/
def Page.createdDefault (defTime : Nat) : ColDefault := .scalar defTime

/-- `Page.modified` declaration, identical to `Post.modified`. -/
def Page.modifiedOnupdate (defTime : Nat) : ColDefault := .scalar defTime

/-- ORM INSERT of a post at time `insertTime` (class defined at
`defTime`): the `created` default fills the column. -/
def insertPost (defTime insertTime : Nat) (p : Post) : Post :=
  { p with created := some ((Post.createdDefault defTime).eval insertTime) }

/-- ORM UPDATE of a post's `body` at time `updTime`: assigns the new body
and lets the persistence layer apply `onupdate` to `modified`. -/
def updatePostBody (defTime updTime : Nat) (p : Post) (newBody : String) : Post :=
  { p with body := newBody,
           modified := some ((Post.modifiedOnupdate defTime).eval updTime) }

/-- ORM INSERT of a page at time `insertTime`. -/
def insertPage (defTime insertTime : Nat) (g : Page) : Page :=
  { g with created := some ((Page.createdDefault defTime).eval insertTime) }

/-- ORM UPDATE of a page's `text` at time `updTime`. -/
def updatePageText (defTime updTime : Nat) (g : Page) (newText : String) : Page :=
  { g with text := newText,
           modified := some ((Page.modifiedOnupdate defTime).eval updTime) }

/-- Declared properties of a schema column, as written in `db.Column`. -/
structure ColumnSpec where
  maxLength : Option Nat
  nullable : Bool
  unique : Bool
  indexed : Bool
  deriving Repr, DecidableEq

/-- `username = db.Column(db.String(30), nullable=False, unique=True,
index=True)`. -/
def usernameCol : ColumnSpec :=
  { maxLength := some 30, nullable := false, unique := true, indexed := true }

/-- `email = db.Column(db.String(50), nullable=True, unique=True,
index=True)`. -/
def emailCol : ColumnSpec :=
  { maxLength := some 50, nullable := true, unique := true, indexed := true }

/-- `title = db.Column(db.String(120), nullable=False, index=True)`. -/
def titleCol : ColumnSpec :=
  { maxLength := some 120, nullable := false, unique := false, indexed := true }

/-- Does a string fit the declared VARCHAR length (no bound when the
column is unconstrained)? -/
def fitsLen (len : Option Nat) (s : String) : Bool :=
  match len with
  | none => true
  | some n => s.length ≤ n

/-- Database INSERT into `users`: the relational engine enforces the
declared UNIQUE constraints (SQL UNIQUE ignores NULLs, so two NULL emails
do not conflict) and the declared VARCHAR lengths; this layer adds no
validation, so the engine's errors reach the caller unchanged. -/
def insertUser (tbl : List User) (u : User) : Except DbError (List User) :=
  if tbl.any (fun v => v.username == u.username) then
    .error (.integrityError "UNIQUE constraint failed: users.username")
  else if (match u.email with
           | none => false
           | some e => tbl.any (fun v => v.email == some e)) then
    .error (.integrityError "UNIQUE constraint failed: users.email")
  else if !fitsLen usernameCol.maxLength u.username then
    .error (.dataError "value too long for users.username")
  else if (match u.email with
           | none => false
           | some e => !fitsLen emailCol.maxLength e) then
    .error (.dataError "value too long for users.email")
  else
    .ok (tbl ++ [u])

/-- Database INSERT into `posts`: the engine enforces the declared VARCHAR
lengths of `title` and `slug`. -/
def insertPostRow (tbl : List Post) (p : Post) : Except DbError (List Post) :=
  if !fitsLen titleCol.maxLength p.title then
    .error (.dataError "value too long for posts.title")
  else if (match p.slug with
           | none => false
           | some s => !fitsLen (some 120) s) then
    .error (.dataError "value too long for posts.slug")
  else
    .ok (tbl ++ [p])

/-- The bounds §3 of the spec states for stored `users` rows. -/
def User.inBounds (u : User) : Bool :=
  (u.username.length ≤ 30) &&
  (match u.email with
   | none => true
   | some e => e.length ≤ 50)

/-- The bound §3 of the spec states for stored `posts` rows. -/
def Post.inBounds (p : Post) : Bool :=
  p.title.length ≤ 120

/-- Left cancellation of string concatenation, used for injectivity of the
idealised digest. -/
theorem string_append_cancel_left (s t u : String) (h : s ++ t = s ++ u) : t = u := by
  have hd : s.data ++ t.data = s.data ++ u.data := by
    have h2 := congrArg String.data h
    simpa using h2
  exact String.ext (List.append_cancel_left hd)

/-- The idealised salted digest is injective in the password for a fixed
salt. -/
theorem pwDigest_inj (salt p q : String) (h : pwDigest salt p = pwDigest salt q) : p = q := by
  unfold pwDigest at h
  exact string_append_cancel_left (salt ++ ":") p q (by simpa [String.append_assoc] using h)

/-- A concrete user with no password set, used to instantiate theorems. -/
def u0 : User :=
  { id := some 1, username := "alice", email := none,
    password_hash := none, is_admin := some false }

/-- A concrete stored hash and a user carrying it. -/
def hash0 : PwHash := generate_password_hash "s0" "pw0"

/-- A concrete user whose password has been set. -/
def u1 : User := { u0 with password_hash := some hash0 }

/-- A concrete post with no `pub_date`, `created` pre-filled to 100. -/
def p0 : Post :=
  { id := some 1, title := "hello", created := some 100, modified := none,
    pub_date := none, summary := "sum", body := "old body",
    author := some 1, slug := some "hello" }

/-- C1: for every plaintext P, after the password setter stores P,
`verify_password P` returns true, and `verify_password Q` for any Q ≠ P
returns false (under the collision-free idealisation of the digest). -/
theorem verify_after_set_roundtrip (salt : String) (u : User) (P Q : String) :
    (User.password_set salt u P).verify_password P = .ok true ∧
    (Q ≠ P → (User.password_set salt u P).verify_password Q = .ok false) := by
  constructor
  · simp [User.password_set, User.verify_password, generate_password_hash,
      check_password_hash]
  · intro hQ
    simp only [User.password_set, User.verify_password, generate_password_hash,
      check_password_hash, Except.ok.injEq]
    rw [beq_eq_false_iff_ne]
    exact fun hc => hQ ((pwDigest_inj salt P Q hc).symm)

/-- C1 witness at a concrete salt, user, password and wrong candidate. -/
theorem verify_after_set_roundtrip_witness :
    (User.password_set "s0" u0 "letmein").verify_password "letmein" = .ok true ∧
    (User.password_set "s0" u0 "letmein").verify_password "wrong" = .ok false :=
  ⟨(verify_after_set_roundtrip "s0" u0 "letmein" "wrong").1,
   (verify_after_set_roundtrip "s0" u0 "letmein" "wrong").2 (by decide)⟩

/-- C2: `is_visible` evaluated at time `now` is true exactly when
`pub_date` is set and at most `now`; in particular it is false when
`pub_date` is unset or in the future, and becomes true, with no write to
the record, as soon as the evaluation time reaches `pub_date`. -/
theorem is_visible_iff (now : Nat) (p : Post) :
    p.is_visible now = true ↔ ∃ d, p.pub_date = some d ∧ d ≤ now := by
  cases hp : p.pub_date with
  | none => simp [Post.is_visible, hp]
  | some d => simp [Post.is_visible, hp]

/-- C3: reading `password` fails with an `AttributeError` on every user,
both before and after the setter runs, and the setter writes only the
`password_hash` field, storing the library hash and no plaintext field. -/
theorem password_not_readable (u : User) (salt P : String) :
    u.password = .error (.attributeError "password is not a readable attribute") ∧
    (User.password_set salt u P).password
      = .error (.attributeError "password is not a readable attribute") ∧
    (User.password_set salt u P).password_hash
      = some (generate_password_hash salt P) ∧
    (User.password_set salt u P).username = u.username ∧
    (User.password_set salt u P).email = u.email ∧
    (User.password_set salt u P).is_admin = u.is_admin ∧
    (User.password_set salt u P).id = u.id :=
  ⟨rfl, rfl, rfl, rfl, rfl, rfl, rfl⟩

/-- C4: the `created` default and `modified` on-update value of Post and
Page are the scalar produced by evaluating `datetime.datetime.now()` once
while the class body ran, so every insert or update stamps the frozen
class-definition time `defTime`, whatever the statement time is. -/
theorem frozen_class_time_defaults (defTime t1 t2 : Nat) (p q : Post) (g : Page)
    (b txt : String) :
    (insertPost defTime t1 p).created = some defTime ∧
    (insertPost defTime t2 q).created = some defTime ∧
    (updatePostBody defTime t1 p b).modified = some defTime ∧
    (updatePostBody defTime t2 q b).modified = some defTime ∧
    (insertPage defTime t1 g).created = some defTime ∧
    (updatePageText defTime t2 g txt).modified = some defTime :=
  ⟨rfl, rfl, rfl, rfl, rfl, rfl⟩

/-- C5: evaluation at the failing input. The class body ran at time 0; the
body of `p0` is updated at time 5. `created` is indeed left unchanged and
the body is assigned, but `modified` becomes the frozen class-definition
time 0, not the update time 5, because `onupdate` received the already
evaluated `datetime.datetime.now()`. -/
theorem update_body_modified_frozen :
    (updatePostBody 0 5 p0 "new body").created = some 100 ∧
    (updatePostBody 0 5 p0 "new body").body = "new body" ∧
    (updatePostBody 0 5 p0 "new body").modified = some 0 ∧
    (updatePostBody 0 5 p0 "new body").modified ≠ some 5 :=
  ⟨rfl, rfl, rfl, by decide⟩

/-- C6 counterexample: on a user whose password was never set,
`verify_password` raises (werkzeug calls a string method on the NULL
hash) instead of returning false, so the unrestricted claim fails. -/
theorem verify_password_throws_on_unset :
    u0.verify_password "anything"
      = .error (.attributeError "NoneType object has no attribute count") := rfl

/-- C6 amended: on every user whose password hash is set, verify_password
never throws: it returns the boolean comparison, and returns false
whenever the candidate does not hash to the stored value. -/
theorem verify_password_total_when_set (u : User) (h : PwHash)
    (hset : u.password_hash = some h) (pw : String) :
    u.verify_password pw = .ok (check_password_hash h pw) ∧
    (check_password_hash h pw = false → u.verify_password pw = .ok false) := by
  refine ⟨by simp [User.verify_password, hset], ?_⟩
  intro hmiss
  simp [User.verify_password, hset, hmiss]

/-- C6 witness: a concrete user with a stored hash and a wrong candidate. -/
theorem verify_password_total_when_set_witness :
    u1.verify_password "nope" = .ok false :=
  (verify_password_total_when_set u1 hash0 rfl "nope").2 (by decide)

/-- C7: a post whose `pub_date` is unset is never visible. -/
theorem unset_pub_date_not_visible (now : Nat) (p : Post)
    (h : p.pub_date = none) : p.is_visible now = false := by
  simp [Post.is_visible, h]

/-- C7 witness at the concrete post `p0`. -/
theorem unset_pub_date_not_visible_witness : p0.is_visible 1000 = false :=
  unset_pub_date_not_visible 1000 p0 rfl

/-- C8: inserting a user whose username, or whose non-NULL email, already
appears in the table fails with an integrity error from the database
engine; the model layer adds nothing, so the error reaches the caller. -/
theorem duplicate_user_integrity_error (tbl : List User) (u : User) :
    ((∃ v ∈ tbl, v.username = u.username) →
      ∃ m, insertUser tbl u = .error (.integrityError m)) ∧
    (∀ e, u.email = some e → (∃ v ∈ tbl, v.email = some e) →
      ∃ m, insertUser tbl u = .error (.integrityError m)) := by
  constructor
  · rintro ⟨v, hv, hvu⟩
    have hany : tbl.any (fun w => w.username == u.username) = true := by
      simp only [List.any_eq_true, beq_iff_eq]
      exact ⟨v, hv, hvu⟩
    exact ⟨"UNIQUE constraint failed: users.username", by simp [insertUser, hany]⟩
  · rintro e he ⟨v, hv, hve⟩
    by_cases h1 : tbl.any (fun w => w.username == u.username) = true
    · exact ⟨"UNIQUE constraint failed: users.username", by simp [insertUser, h1]⟩
    · have hany : (match u.email with
                   | none => false
                   | some e2 => tbl.any (fun w => w.email == some e2)) = true := by
        rw [he]
        simp only [List.any_eq_true, beq_iff_eq]
        exact ⟨v, hv, hve⟩
      exact ⟨"UNIQUE constraint failed: users.email", by simp [insertUser, h1, hany]⟩

/-- C8 witness: re-inserting `u0` into a table already holding `u0`. -/
theorem duplicate_user_integrity_error_witness :
    ∃ m, insertUser [u0] u0 = .error (.integrityError m) :=
  (duplicate_user_integrity_error [u0] u0).1 ⟨u0, by simp, rfl⟩

/-- A successful database INSERT into `users` appends the row and only
succeeds when the row fits the declared column lengths. -/
theorem insertUser_ok_inBounds (tbl : List User) (u : User) (tbl2 : List User)
    (hok : insertUser tbl u = Except.ok tbl2) :
    tbl2 = tbl ++ [u] ∧ u.inBounds = true := by
  unfold insertUser at hok
  split at hok
  · exact absurd hok (by simp)
  split at hok
  · exact absurd hok (by simp)
  split at hok
  · exact absurd hok (by simp)
  split at hok
  · exact absurd hok (by simp)
  next h1 h2 h3 h4 =>
    simp only [Except.ok.injEq] at hok
    refine ⟨hok.symm, ?_⟩
    simp only [fitsLen, usernameCol, Bool.not_eq_true, Bool.not_eq_false_eq_eq_true,
      decide_eq_true_eq] at h3
    cases he : u.email with
    | none => simp [User.inBounds, he, h3]
    | some e =>
      rw [he] at h4
      simp only [fitsLen, emailCol, Bool.not_eq_true, Bool.not_eq_false_eq_eq_true,
        decide_eq_true_eq] at h4
      simp [User.inBounds, he, h3, h4]

/-- A successful database INSERT into `posts` appends the row and only
succeeds when the title fits the declared length. -/
theorem insertPostRow_ok_inBounds (tbl : List Post) (p : Post) (tbl2 : List Post)
    (hok : insertPostRow tbl p = Except.ok tbl2) :
    tbl2 = tbl ++ [p] ∧ p.inBounds = true := by
  unfold insertPostRow at hok
  split at hok
  · exact absurd hok (by simp)
  split at hok
  · exact absurd hok (by simp)
  next h1 h2 =>
    simp only [Except.ok.injEq] at hok
    refine ⟨hok.symm, ?_⟩
    simp only [fitsLen, titleCol, Bool.not_eq_true, Bool.not_eq_false_eq_eq_true,
      decide_eq_true_eq] at h1
    simp [Post.inBounds, h1]

/-- C9: the schema declares username at most 30 characters (unique,
indexed, required), email at most 50 (unique, indexed, optional) and title
at most 120 (indexed, required); under the engine's enforcement of these
declarations, tables built by inserts only hold rows within the bounds. -/
theorem schema_bounds_invariant :
    usernameCol = { maxLength := some 30, nullable := false,
                    unique := true, indexed := true } ∧
    emailCol = { maxLength := some 50, nullable := true,
                 unique := true, indexed := true } ∧
    titleCol = { maxLength := some 120, nullable := false,
                 unique := false, indexed := true } ∧
    (∀ tbl u tbl2, insertUser tbl u = Except.ok tbl2 →
      (∀ v ∈ tbl, v.inBounds = true) → ∀ v ∈ tbl2, v.inBounds = true) ∧
    (∀ tbl p tbl2, insertPostRow tbl p = Except.ok tbl2 →
      (∀ q ∈ tbl, q.inBounds = true) → ∀ q ∈ tbl2, q.inBounds = true) := by
  refine ⟨rfl, rfl, rfl, ?_, ?_⟩
  · intro tbl u tbl2 hok hin v hv
    obtain ⟨heq, hu⟩ := insertUser_ok_inBounds tbl u tbl2 hok
    subst heq
    rcases List.mem_append.mp hv with hvin | hvin
    · exact hin v hvin
    · rw [List.mem_singleton.mp hvin]; exact hu
  · intro tbl p tbl2 hok hin q hq
    obtain ⟨heq, hp⟩ := insertPostRow_ok_inBounds tbl p tbl2 hok
    subst heq
    rcases List.mem_append.mp hq with hqin | hqin
    · exact hin q hqin
    · rw [List.mem_singleton.mp hqin]; exact hp

/-- C9 witness: inserting `u0` into an empty table and `p0` into an empty
table yields tables whose rows all satisfy the bounds. -/
theorem schema_bounds_invariant_witness :
    (∀ v ∈ [u0], v.inBounds = true) ∧ (∀ q ∈ [p0], q.inBounds = true) :=
  ⟨schema_bounds_invariant.2.2.2.1 [] u0 [u0] rfl
      (fun v hv => absurd hv (List.not_mem_nil v)),
   schema_bounds_invariant.2.2.2.2 [] p0 [p0] rfl
      (fun q hq => absurd hq (List.not_mem_nil q))⟩

/-- C10: on a user whose password hash is NULL (the setter never ran),
`verify_password` raises an exception for every candidate instead of
returning false. -/
theorem verify_password_raises_when_unset (u : User)
    (hu : u.password_hash = none) (pw : String) :
    ∃ e, u.verify_password pw = .error e := by
  refine ⟨.attributeError "NoneType object has no attribute count", ?_⟩
  simp [User.verify_password, hu]

/-- C10 witness at the concrete unset user `u0`. -/
theorem verify_password_raises_when_unset_witness :
    ∃ e, u0.verify_password "candidate" = .error e :=
  verify_password_raises_when_unset u0 rfl "candidate"

end FlaskBlog
